import Mathlib

/-!
Shallow embedding of the authentication core of the `chat-with-docs`
repository (the code in `app/core/security.py`, `app/services/auth_service.py`
and `app/api/v1/auth.py`), together with theorems checking the
natural-language specification against it.

Modelling conventions:
* Timestamps are whole epoch seconds, represented as `Int` (the Python code
  truncates JWT timestamps with `int(...)`, so whole seconds are the native
  resolution of the model).
* UUIDs (user ids, refresh-token record ids) are represented as `Nat`.
* The SHA-256 fingerprint `hash_refresh_token` and the salted password hash
  `hash_password` / `verify_password` are cryptographic primitives from
  outside the repository; they enter every definition as explicit function
  parameters (`fp`, `hash_pw`, `verify_pw`), so every statement is proved for
  an arbitrary deterministic digest.
* Randomness (`secrets.token_urlsafe`, `uuid4`) is modelled by passing the
  fresh secret / fresh id as an explicit argument to the operation that
  draws it; freshness, where a proof needs it, is an explicit hypothesis.
* A signed JWT (`jwt.encode` / `jwt.decode` from PyJWT) is modelled as a
  record carrying its payload plus the key and algorithm it was signed with;
  signature verification succeeds exactly when key and algorithm match the
  verifier's configuration.
* The SQL store is a `Store` of lists; `select ... .first()` is `List.find?`,
  an ORM field update that is committed is a positional `List.map` update.
* `HTTPException` raises in the service are modelled by the error kinds of
  the spec's taxonomy: status 401 "Invalid credentials" is
  `invalidCredentials`, 401 "Invalid or expired refresh token" is
  `invalidOrExpiredToken`, 401 "User not found" is `userNotFound`,
  409 "Email already registered" is `duplicateEmail`, and
  `InvalidTokenError` is `invalidToken`.
-/

namespace ChatWithDocs

/-- A JSON claim value occurring in a JWT payload: PyJWT payloads used by
this repository only carry strings and integers. -/
inductive JVal where
  | str (s : String)
  | num (n : Int)
deriving Repr, DecidableEq

/-- A JWT payload: an ordered key/value mapping, as a Python dict is. -/
abbrev Payload := List (String × JVal)

/-- `payload.get k` — Python `payload.get(k)`: the value at the first
occurrence of key `k`, if any. -/
def Payload.get (p : Payload) (k : String) : Option JVal :=
  (p.find? (fun kv => kv.fst == k)).map (fun kv => kv.snd)

/-- Python `payload[k] = v`: overwrite the value at key `k` in place, or
append the pair when the key is absent. -/
def Payload.set (p : Payload) (k : String) (v : JVal) : Payload :=
  if p.any (fun kv => kv.fst == k) then
    p.map (fun kv => if kv.fst == k then (k, v) else kv)
  else
    p ++ [(k, v)]

/-- Python `payload.update(extra)`: set every key of `extra` in order. -/
def Payload.update (p : Payload) (extra : Payload) : Payload :=
  extra.foldl (fun acc kv => acc.set kv.fst kv.snd) p

/-- Python `int(v)` applied to a claim value: an integer is itself, a string
is parsed as a decimal integer when possible (PyJWT applies `int` to the
`exp` and `iat` claims and treats a failure as a decode error). -/
def jvalToInt : JVal → Option Int
  | JVal.num n => some n
  | JVal.str s => s.toInt?

/-- A signed JWT as produced by `jwt.encode(payload, key, algorithm)`:
the payload together with the signing key and algorithm. Verification
succeeds exactly when key and algorithm match the verifier's. -/
structure Jwt where
  payload : Payload
  key : String
  alg : String
deriving Repr, DecidableEq

/-- The configuration surface of `app/core/config.py` that the auth core
reads (`Settings`). -/
structure Config where
  JWT_ACCESS_SECRET : String
  JWT_ALGORITHM : String
  JWT_ISSUER : Option String
  JWT_ACCESS_EXPIRES_MINUTES : Nat
  REFRESH_TOKEN_EXPIRES_DAYS : Nat
deriving Repr, DecidableEq

/-- `create_access_token` of `app/core/security.py`: builds the claim set
`{sub, iat, exp, typ="access"}` (plus `iss` when an issuer is configured),
merges `additional_claims` over it, and signs. `exp` is `iat` plus the
requested minutes (or the configured default). -/
def create_access_token (cfg : Config) (subject : String) (now : Int)
    (expire_minutes : Option Nat) (additional_claims : Payload) : Jwt :=
  let minutes : Nat := expire_minutes.getD cfg.JWT_ACCESS_EXPIRES_MINUTES
  let issued_at : Int := now
  let expires_at : Int := now + 60 * (minutes : Int)
  let base : Payload :=
    [("sub", JVal.str subject), ("iat", JVal.num issued_at),
     ("exp", JVal.num expires_at), ("typ", JVal.str "access")]
  let base2 : Payload :=
    match cfg.JWT_ISSUER with
    | some iss => base ++ [("iss", JVal.str iss)]
    | none => base
  { payload := base2.update additional_claims,
    key := cfg.JWT_ACCESS_SECRET, alg := cfg.JWT_ALGORITHM }

/-- The error taxonomy of the spec (§7); the service raises these as
`HTTPException` / `InvalidTokenError` values with fixed messages. -/
inductive AuthError where
  | invalidCredentials
  | duplicateEmail
  | invalidToken
  | invalidOrExpiredToken
  | userNotFound
deriving Repr, DecidableEq

/-- `decode_access_token` of `app/core/security.py`: verifies the signature
(key and algorithm must match the configuration), requires the `exp` and
`sub` claims (and `iss` when an issuer is configured), checks that `iat`
and `exp` parse as integers, rejects when `exp ≤ now` (PyJWT treats the
token as valid exactly while `now < exp`), compares the issuer when
configured, and finally requires the discriminator claim `typ = "access"`.
Every failure — PyJWT errors and the type check alike — is collapsed into
the single kind `invalidToken`. -/
def decode_access_token (cfg : Config) (tok : Jwt) (now : Int) :
    Except AuthError Payload :=
  if ¬(tok.key == cfg.JWT_ACCESS_SECRET && tok.alg == cfg.JWT_ALGORITHM) then
    Except.error AuthError.invalidToken
  else if (tok.payload.get "exp").isNone then
    Except.error AuthError.invalidToken
  else if (tok.payload.get "sub").isNone then
    Except.error AuthError.invalidToken
  else if cfg.JWT_ISSUER.isSome && (tok.payload.get "iss").isNone then
    Except.error AuthError.invalidToken
  else if (match tok.payload.get "iat" with
           | some v => (jvalToInt v).isNone
           | none => false) then
    Except.error AuthError.invalidToken
  else
    match (tok.payload.get "exp").bind jvalToInt with
    | none => Except.error AuthError.invalidToken
    | some e =>
      if e ≤ now then
        Except.error AuthError.invalidToken
      else
        match cfg.JWT_ISSUER with
        | some iss =>
          if tok.payload.get "iss" != some (JVal.str iss) then
            Except.error AuthError.invalidToken
          else if tok.payload.get "typ" != some (JVal.str "access") then
            Except.error AuthError.invalidToken
          else
            Except.ok tok.payload
        | none =>
          if tok.payload.get "typ" != some (JVal.str "access") then
            Except.error AuthError.invalidToken
          else
            Except.ok tok.payload

/-- The `users` table row (`app/models/user.py`): id, unique email, display
name, stored password hash. -/
structure User where
  id : Nat
  email : String
  name : String
  password : String
deriving Repr, DecidableEq

/-- The `refresh_tokens` table row (`app/models/refresh_token.py`): id,
owning user, one-way hash of the raw secret, expiry, and a nullable
revocation timestamp. -/
structure RefreshToken where
  id : Nat
  user_id : Nat
  token_hash : String
  expires_at : Int
  revoked_at : Option Int
deriving Repr, DecidableEq

/-- The relational store the session talks to: the two tables the auth core
touches. -/
structure Store where
  users : List User
  tokens : List RefreshToken
deriving Repr, DecidableEq

/-- `get_user_by_email`: `select(User).where(User.email == email)` then
`.first()`. -/
def get_user_by_email (s : Store) (email : String) : Option User :=
  s.users.find? (fun u => u.email == email)

/-- `get_user_by_id`: `session.get(User, user_id)` (primary-key lookup). -/
def get_user_by_id (s : Store) (uid : Nat) : Option User :=
  s.users.find? (fun u => u.id == uid)

/-- `session.get(RefreshToken, token_id)` (primary-key lookup). -/
def get_token_by_id (s : Store) (tid : Nat) : Option RefreshToken :=
  s.tokens.find? (fun t => t.id == tid)

/-- `refresh_token_expires_at`: issue time plus the configured number of
days (`timedelta(days=d)` is `d * 86400` seconds). -/
def refresh_token_expires_at (now : Int) (expires_days : Nat) : Int :=
  now + (expires_days : Int) * 86400

/-- `AuthService.issue_refresh_token`: fingerprint a fresh raw secret,
compute expiry, and persist a new unrevoked record. Returns the updated
store and the raw secret (handed to the caller exactly once). The fresh
secret and the new row id are explicit arguments (they are random in the
code). -/
def issue_refresh_token (fp : String → String) (s : Store) (user : User)
    (raw_token : String) (new_id : Nat) (now : Int) (expires_days : Nat) :
    Store × String :=
  let tok : RefreshToken :=
    { id := new_id, user_id := user.id, token_hash := fp raw_token,
      expires_at := refresh_token_expires_at now expires_days,
      revoked_at := none }
  ({ s with tokens := s.tokens ++ [tok] }, raw_token)

/-- The validation query of `AuthService.refresh_tokens` (lines 113-118):
`select(RefreshToken).where(token_hash == h, expires_at > now,
revoked_at.is_(None))` then `.first()`. -/
def findActiveToken (s : Store) (h : String) (now : Int) :
    Option RefreshToken :=
  s.tokens.find? (fun t =>
    t.token_hash == h && decide (now < t.expires_at) && t.revoked_at.isNone)

/-- `AuthService.authenticate_user`, instrumented with a count of
password-hash-primitive invocations: when no user matches the email a dummy
`hash_password` runs (one hash operation) and the result is `none`; when the
password fails `verify_password` (one hash operation) the result is `none`;
otherwise the user is returned after the one verify. -/
def authenticate_user (hash_pw : String → String)
    (verify_pw : String → String → Bool) (s : Store)
    (email password : String) : Option User × Nat :=
  match get_user_by_email s email with
  | none =>
    let _ := hash_pw "dummy"
    (none, 1)
  | some user =>
    if verify_pw password user.password then (some user, 1) else (none, 1)

/-- `AuthService.login`: authenticate, fail `invalidCredentials` when that
yields no user, otherwise issue an access token and a refresh token.
Returns the updated store, the outcome, and the hash-operation count of the
authentication step. -/
def login (fp hash_pw : String → String)
    (verify_pw : String → String → Bool) (cfg : Config) (s : Store)
    (email password : String) (now : Int) (new_secret : String)
    (new_id : Nat) : Store × Except AuthError (Jwt × String) × Nat :=
  match authenticate_user hash_pw verify_pw s email password with
  | (none, n) => (s, Except.error AuthError.invalidCredentials, n)
  | (some user, n) =>
    let access := create_access_token cfg (toString user.id) now none []
    let issued := issue_refresh_token fp s user new_secret new_id now
      cfg.REFRESH_TOKEN_EXPIRES_DAYS
    (issued.fst, Except.ok (access, issued.snd), n)

/-- `AuthService.create_user`: fail `duplicateEmail` when a user with the
email exists, otherwise persist a new user whose stored password is the
hash of the given password. -/
def create_user (hash_pw : String → String) (s : Store)
    (email name password : String) (new_id : Nat) :
    Store × Except AuthError User :=
  match get_user_by_email s email with
  | some _ => (s, Except.error AuthError.duplicateEmail)
  | none =>
    let user : User :=
      { id := new_id, email := email, name := name,
        password := hash_pw password }
    ({ s with users := s.users ++ [user] }, Except.ok user)

/-- The `/auth/signup` route: `create_user`, then on success an access token
and a refresh token for the new user. -/
def signup (fp hash_pw : String → String) (cfg : Config) (s : Store)
    (email name password : String) (new_user_id : Nat) (now : Int)
    (new_secret : String) (new_tok_id : Nat) :
    Store × Except AuthError (User × Jwt × String) :=
  match create_user hash_pw s email name password new_user_id with
  | (s1, Except.error e) => (s1, Except.error e)
  | (s1, Except.ok user) =>
    let access := create_access_token cfg (toString user.id) now none []
    let issued := issue_refresh_token fp s1 user new_secret new_tok_id now
      cfg.REFRESH_TOKEN_EXPIRES_DAYS
    (issued.fst, Except.ok (user, access, issued.snd))

/-- `AuthService.refresh_tokens`: fingerprint the presented secret, look up
a matching non-revoked, non-expired record (fail `invalidOrExpiredToken`
when none), look up the owning user (fail `userNotFound` when gone), then
in one transaction set `revoked_at` on the old record and issue a new one,
and finally mint a new access token. Failures occur before any write, so
the store is returned unchanged on every error path. -/
def refresh_tokens (fp : String → String) (cfg : Config) (s : Store)
    (presented : String) (now : Int) (new_secret : String) (new_id : Nat) :
    Store × Except AuthError (Jwt × String) :=
  match findActiveToken s (fp presented) now with
  | none => (s, Except.error AuthError.invalidOrExpiredToken)
  | some stored_token =>
    match get_user_by_id s stored_token.user_id with
    | none => (s, Except.error AuthError.userNotFound)
    | some user =>
      let s1 : Store :=
        { s with tokens := s.tokens.map (fun t =>
            if t.id == stored_token.id then { t with revoked_at := some now }
            else t) }
      let issued := issue_refresh_token fp s1 user new_secret new_id now
        cfg.REFRESH_TOKEN_EXPIRES_DAYS
      let access := create_access_token cfg (toString user.id) now none []
      (issued.fst, Except.ok (access, issued.snd))

/-- `AuthService.revoke_refresh_token`: a primary-key lookup; when the
record is missing or already revoked this is a deliberate no-op, otherwise
`revoked_at` is set to now. -/
def revoke_refresh_token (s : Store) (token_id : Nat) (now : Int) : Store :=
  match get_token_by_id s token_id with
  | none => s
  | some tok =>
    if tok.revoked_at.isSome then s
    else
      { s with tokens := s.tokens.map (fun t =>
          if t.id == token_id then { t with revoked_at := some now } else t) }

/-- `AuthService.revoke_all_user_tokens`: select every record of the user
with `revoked_at` null (expiry is not part of the filter), set `revoked_at`
on each, and return how many were selected. -/
def revoke_all_user_tokens (s : Store) (user_id : Nat) (now : Int) :
    Store × Nat :=
  let toks := s.tokens.filter (fun t =>
    t.user_id == user_id && t.revoked_at.isNone)
  ({ s with tokens := s.tokens.map (fun t =>
      if t.user_id == user_id && t.revoked_at.isNone then
        { t with revoked_at := some now }
      else t) },
   toks.length)

/-- The database's unique index on `refresh_tokens.token_hash`: all stored
fingerprints are pairwise distinct. -/
def TokenHashesDistinct (s : Store) : Prop :=
  s.tokens.Pairwise (fun a b => a.token_hash ≠ b.token_hash)

instance (s : Store) : Decidable (TokenHashesDistinct s) := by
  unfold TokenHashesDistinct
  exact List.instDecidablePairwise s.tokens

/-- Modelled from the spec: the spec (§3, §8) calls a record "active" when
it is non-revoked AND non-expired. This count follows the spec's words, to
be compared with what `revoke_all_user_tokens` actually counts. -/
def activeRecordCount (s : Store) (user_id : Nat) (now : Int) : Nat :=
  (s.tokens.filter (fun t =>
    t.user_id == user_id && t.revoked_at.isNone
      && decide (now < t.expires_at))).length

/-! ### Concrete fixtures used by witness theorems -/

/-- A concrete deterministic fingerprint for witnesses. -/
def exFp : String → String := fun x => "h" ++ x

/-- A concrete configuration for witnesses. -/
def exCfg : Config :=
  { JWT_ACCESS_SECRET := "sec", JWT_ALGORITHM := "HS256", JWT_ISSUER := none,
    JWT_ACCESS_EXPIRES_MINUTES := 15, REFRESH_TOKEN_EXPIRES_DAYS := 10 }

/-- A concrete user for witnesses. -/
def exUser : User := { id := 1, email := "a@x.com", name := "Ann", password := "Hpw" }

/-- A concrete active refresh-token record (hash of the raw secret "R"). -/
def exTok : RefreshToken :=
  { id := 1, user_id := 1, token_hash := "hR", expires_at := 100, revoked_at := none }

/-- A concrete store holding one user and one active record. -/
def exStore : Store := { users := [exUser], tokens := [exTok] }

/-- A store whose only record is owned by a user that no longer exists. -/
def exOrphanStore : Store := { users := [], tokens := [exTok] }

/-- A concrete salted-hash stand-in for witnesses. -/
def exHashPw : String → String := fun x => "H" ++ x

/-- A concrete password verifier matching `exHashPw` for witnesses. -/
def exVerifyPw : String → String → Bool := fun plain hashed => hashed == "H" ++ plain

/-- A signed token whose discriminator claim is missing: `decode` must
reject it. -/
def exBadTypJwt : Jwt :=
  { payload := [("exp", JVal.num 10), ("sub", JVal.str "1")],
    key := "sec", alg := "HS256" }

/-- A store whose single record for user 1 is expired but not revoked:
`revoke_all_user_tokens` still selects and revokes it. -/
def exExpiredStore : Store :=
  { users := [exUser],
    tokens := [RefreshToken.mk 1 1 "hR" 5 none] }

/-- A store where user 1 has two unrevoked records (one of them already
expired) and one revoked record, and user 2 has one unrevoked record. -/
def exMultiStore : Store :=
  { users := [exUser],
    tokens := [RefreshToken.mk 1 1 "hA" 100 none, RefreshToken.mk 2 1 "hB" 5 none,
               RefreshToken.mk 3 1 "hC" 100 (some 2),
               RefreshToken.mk 4 2 "hD" 100 none] }

/-- The store after rotating "R" in `exStore` at time 5 with fresh secret
"S" and new id 2: the old record revoked at 5, a new active record added. -/
def exRotStore : Store :=
  { users := [exUser],
    tokens := [RefreshToken.mk 1 1 "hR" 100 (some 5),
               RefreshToken.mk 2 1 "hS" 864005 none] }

/-- The access token minted by that concrete rotation. -/
def exRotJwt : Jwt :=
  { payload := [("sub", JVal.str "1"), ("iat", JVal.num 5),
                ("exp", JVal.num 905), ("typ", JVal.str "access")],
    key := "sec", alg := "HS256" }

/-! ### Helper lemmas -/

/-- The validation query succeeds exactly when some stored record matches
the fingerprint, is unrevoked, and is unexpired. -/
theorem findActiveToken_isSome_iff (s : Store) (h : String) (now : Int) :
    (findActiveToken s h now).isSome ↔
      ∃ t ∈ s.tokens,
        t.token_hash = h ∧ t.revoked_at = none ∧ now < t.expires_at := by
  unfold findActiveToken
  rw [List.find?_isSome]
  constructor
  · rintro ⟨t, ht, hp⟩
    simp only [Bool.and_eq_true, beq_iff_eq, decide_eq_true_eq,
      Option.isNone_iff_eq_none] at hp
    exact ⟨t, ht, hp.1.1, hp.2, hp.1.2⟩
  · rintro ⟨t, ht, h1, h2, h3⟩
    refine ⟨t, ht, ?_⟩
    simp only [Bool.and_eq_true, beq_iff_eq, decide_eq_true_eq,
      Option.isNone_iff_eq_none]
    exact ⟨⟨h1, h3⟩, h2⟩

/-- The validation query fails exactly when no stored record matches. -/
theorem findActiveToken_eq_none_iff (s : Store) (h : String) (now : Int) :
    findActiveToken s h now = none ↔
      ∀ t ∈ s.tokens,
        ¬(t.token_hash = h ∧ t.revoked_at = none ∧ now < t.expires_at) := by
  rw [← Option.not_isSome_iff_eq_none, findActiveToken_isSome_iff]
  constructor
  · intro hx t ht hc
    exact hx ⟨t, ht, hc⟩
  · intro hx hex
    rcases hex with ⟨t, ht, hc⟩
    exact hx t ht hc

/-- A successful validation returns a matching record from the store. -/
theorem findActiveToken_some_spec (s : Store) (h : String) (now : Int)
    (tok : RefreshToken) (hf : findActiveToken s h now = some tok) :
    tok ∈ s.tokens ∧ tok.token_hash = h ∧ tok.revoked_at = none
      ∧ now < tok.expires_at := by
  have hmem := List.mem_of_find?_eq_some hf
  have hp := List.find?_some hf
  simp only [Bool.and_eq_true, beq_iff_eq, decide_eq_true_eq,
    Option.isNone_iff_eq_none] at hp
  exact ⟨hmem, hp.1.1, hp.2, hp.1.2⟩

/-! ### Claims -/

/-- C2: refresh validation succeeds if and only if the store contains a
record whose `token_hash` equals the fingerprint of the presented secret,
whose `revoked_at` is null, and whose `expires_at` is strictly greater than
the current time; when no such record exists, `refresh_tokens` fails with
the single error kind `invalidOrExpiredToken`. -/
theorem C2_validate_iff_matching_record (fp : String → String) (cfg : Config)
    (s : Store) (raw : String) (now : Int) :
    ((findActiveToken s (fp raw) now).isSome ↔
      ∃ t ∈ s.tokens,
        t.token_hash = fp raw ∧ t.revoked_at = none ∧ now < t.expires_at)
    ∧ ((∀ t ∈ s.tokens,
          ¬(t.token_hash = fp raw ∧ t.revoked_at = none ∧ now < t.expires_at)) →
        ∀ ns nid, refresh_tokens fp cfg s raw now ns nid =
          (s, Except.error AuthError.invalidOrExpiredToken)) := by
  refine ⟨findActiveToken_isSome_iff s (fp raw) now, ?_⟩
  intro hnone ns nid
  have h0 : findActiveToken s (fp raw) now = none :=
    (findActiveToken_eq_none_iff s (fp raw) now).mpr hnone
  unfold refresh_tokens
  rw [h0]

/-- Witness for C2 at a concrete store: the secret "X" was never issued,
so validation finds nothing and rotation fails without touching the
store. -/
theorem C2_witness :
    (((findActiveToken exStore (exFp "X") 5).isSome ↔
      ∃ t ∈ exStore.tokens,
        t.token_hash = exFp "X" ∧ t.revoked_at = none ∧ (5:Int) < t.expires_at))
    ∧ refresh_tokens exFp exCfg exStore "X" 5 "S" 2 =
        (exStore, Except.error AuthError.invalidOrExpiredToken) :=
  ⟨(C2_validate_iff_matching_record exFp exCfg exStore "X" 5).1,
   (C2_validate_iff_matching_record exFp exCfg exStore "X" 5).2 (by decide) "S" 2⟩

/-- C3: when validation of the presented secret fails — no stored record
matches its fingerprint unrevoked and unexpired — `refresh_tokens` raises
`invalidOrExpiredToken` and returns the store exactly as it was: no record
revoked, no record created. -/
theorem C3_rotation_atomic_on_failure (fp : String → String) (cfg : Config)
    (s : Store) (raw : String) (now : Int) (ns : String) (nid : Nat)
    (hfail : ∀ t ∈ s.tokens,
      ¬(t.token_hash = fp raw ∧ t.revoked_at = none ∧ now < t.expires_at)) :
    refresh_tokens fp cfg s raw now ns nid =
      (s, Except.error AuthError.invalidOrExpiredToken) := by
  have h0 : findActiveToken s (fp raw) now = none :=
    (findActiveToken_eq_none_iff s (fp raw) now).mpr hfail
  unfold refresh_tokens
  rw [h0]

/-- Witness for C3: presenting the revoked-after-rotation secret "X" at the
concrete store leaves the store untouched. -/
theorem C3_witness :
    (∀ t ∈ exStore.tokens,
      ¬(t.token_hash = exFp "X" ∧ t.revoked_at = none ∧ (5:Int) < t.expires_at))
    ∧ refresh_tokens exFp exCfg exStore "X" 5 "S" 2 =
        (exStore, Except.error AuthError.invalidOrExpiredToken) :=
  ⟨by decide, C3_rotation_atomic_on_failure exFp exCfg exStore "X" 5 "S" 2 (by decide)⟩

/-- C10: when a matching active record exists but its owning user is gone,
`refresh_tokens` fails with `userNotFound` before any write: the store is
unchanged and the same secret still validates to the same record
afterwards. -/
theorem C10_user_vanished_no_mutation (fp : String → String) (cfg : Config)
    (s : Store) (raw : String) (now : Int) (ns : String) (nid : Nat)
    (tok : RefreshToken)
    (hfind : findActiveToken s (fp raw) now = some tok)
    (huser : get_user_by_id s tok.user_id = none) :
    refresh_tokens fp cfg s raw now ns nid =
      (s, Except.error AuthError.userNotFound)
    ∧ findActiveToken (refresh_tokens fp cfg s raw now ns nid).fst
        (fp raw) now = some tok := by
  have hmain : refresh_tokens fp cfg s raw now ns nid =
      (s, Except.error AuthError.userNotFound) := by
    unfold refresh_tokens
    rw [hfind]
    simp only [huser]
  exact ⟨hmain, by rw [hmain]; exact hfind⟩

/-- Witness for C10: the concrete orphan store holds an active record for
user 1 but no users; rotation fails with `userNotFound` and the record
still validates. -/
theorem C10_witness :
    findActiveToken exOrphanStore (exFp "R") 5 = some exTok
    ∧ get_user_by_id exOrphanStore exTok.user_id = none
    ∧ refresh_tokens exFp exCfg exOrphanStore "R" 5 "S" 2 =
        (exOrphanStore, Except.error AuthError.userNotFound)
    ∧ findActiveToken (refresh_tokens exFp exCfg exOrphanStore "R" 5 "S" 2).fst
        (exFp "R") 5 = some exTok :=
  ⟨by decide, by decide,
   (C10_user_vanished_no_mutation exFp exCfg exOrphanStore "R" 5 "S" 2 exTok
      (by decide) (by decide)).1,
   (C10_user_vanished_no_mutation exFp exCfg exOrphanStore "R" 5 "S" 2 exTok
      (by decide) (by decide)).2⟩

/-- C4: access-token round trip. Encoding `subject` at `now` with a
positive ttl of `ttl` minutes and decoding at any `t < now + 60*ttl`
returns the claim set, whose `sub` is the subject and whose `iat`/`exp`
are the whole-second timestamps `now` and `now + 60*ttl`; decoding at or
after `now + 60*ttl` fails with `invalidToken` — validity is exactly the
strict comparison `now < exp`. -/
theorem C4_access_token_round_trip (cfg : Config) (subject : String)
    (now : Int) (ttl : Nat) (t : Int) (_hpos : 0 < ttl) :
    (t < now + 60 * (ttl : Int) →
      decode_access_token cfg (create_access_token cfg subject now (some ttl) []) t =
        Except.ok (create_access_token cfg subject now (some ttl) []).payload
      ∧ (create_access_token cfg subject now (some ttl) []).payload.get "sub" =
          some (JVal.str subject)
      ∧ (create_access_token cfg subject now (some ttl) []).payload.get "iat" =
          some (JVal.num now)
      ∧ (create_access_token cfg subject now (some ttl) []).payload.get "exp" =
          some (JVal.num (now + 60 * (ttl : Int))))
    ∧ (now + 60 * (ttl : Int) ≤ t →
      decode_access_token cfg (create_access_token cfg subject now (some ttl) []) t =
        Except.error AuthError.invalidToken) := by
  constructor
  · intro ht
    rcases hiss : cfg.JWT_ISSUER with _ | iss
    all_goals
      refine ⟨?_, ?_, ?_, ?_⟩ <;>
        simp [create_access_token, decode_access_token, Payload.update,
          Payload.get, hiss, jvalToInt, List.find?, not_le.mpr ht]
  · intro ht
    rcases hiss : cfg.JWT_ISSUER with _ | iss
    all_goals
      simp [create_access_token, decode_access_token, Payload.update,
        Payload.get, hiss, jvalToInt, List.find?, ht]

/-- Witness for C4 at concrete inputs: encoding subject "u7" at time 1000
with a 15-minute ttl decodes successfully at 1500 with `sub = "u7"`, and
fails with `invalidToken` at 1900 = 1000 + 900. -/
theorem C4_witness :
    (0 < 15)
    ∧ ((1500 : Int) < 1000 + 60 * (15 : Int))
    ∧ decode_access_token exCfg (create_access_token exCfg "u7" 1000 (some 15) []) 1500 =
        Except.ok (create_access_token exCfg "u7" 1000 (some 15) []).payload
    ∧ (create_access_token exCfg "u7" 1000 (some 15) []).payload.get "sub" =
        some (JVal.str "u7")
    ∧ (1000 + 60 * (15 : Int) ≤ 1900)
    ∧ decode_access_token exCfg (create_access_token exCfg "u7" 1000 (some 15) []) 1900 =
        Except.error AuthError.invalidToken :=
  ⟨by decide, by decide,
   ((C4_access_token_round_trip exCfg "u7" 1000 15 1500 (by decide)).1 (by decide)).1,
   ((C4_access_token_round_trip exCfg "u7" 1000 15 1500 (by decide)).1 (by decide)).2.1,
   by decide,
   (C4_access_token_round_trip exCfg "u7" 1000 15 1900 (by decide)).2 (by decide)⟩

/-- C5: for every input token, `decode_access_token` either returns the
verified claims or fails with the single kind `invalidToken`; every error
it can produce is `invalidToken`, and in particular a discriminator claim
other than "access" is rejected with that same kind. -/
theorem C5_decode_single_error_kind (cfg : Config) (tok : Jwt) (now : Int) :
    ((∃ p, decode_access_token cfg tok now = Except.ok p) ∨
      decode_access_token cfg tok now = Except.error AuthError.invalidToken)
    ∧ (∀ e, decode_access_token cfg tok now = Except.error e →
        e = AuthError.invalidToken)
    ∧ (tok.payload.get "typ" ≠ some (JVal.str "access") →
        decode_access_token cfg tok now = Except.error AuthError.invalidToken) := by
  have htotal : (∃ p, decode_access_token cfg tok now = Except.ok p) ∨
      decode_access_token cfg tok now = Except.error AuthError.invalidToken := by
    unfold decode_access_token
    repeat' split
    all_goals first
      | (right; rfl)
      | (left; exact ⟨_, rfl⟩)
  refine ⟨htotal, ?_, ?_⟩
  · intro e he
    rcases htotal with ⟨p, hp⟩ | herr
    · rw [he] at hp; exact absurd hp (by simp)
    · rw [he] at herr
      exact (Except.error.injEq _ _).mp herr
  · intro hty
    unfold decode_access_token
    repeat' split
    all_goals try rfl
    all_goals simp_all [bne_iff_ne]

/-- Witness for C5: a token lacking the "access" discriminator is rejected
with `invalidToken`. -/
theorem C5_witness :
    exBadTypJwt.payload.get "typ" ≠ some (JVal.str "access")
    ∧ decode_access_token exCfg exBadTypJwt 5 =
        Except.error AuthError.invalidToken :=
  ⟨by decide, (C5_decode_single_error_kind exCfg exBadTypJwt 5).2.2 (by decide)⟩

/-- C6: login timing indistinguishability. Login with an email no user has
and login with an existing email plus a password that fails verification
both fail with `invalidCredentials`, both leave the store untouched, and
both perform exactly one password-hash-equivalent operation (the dummy
hash in the user-absent path, the verify in the wrong-password path). -/
theorem C6_login_timing_indistinguishable (fp hash_pw : String → String)
    (verify_pw : String → String → Bool) (cfg : Config) (s : Store)
    (email password : String) (now : Int) (ns : String) (nid : Nat) :
    (get_user_by_email s email = none →
      login fp hash_pw verify_pw cfg s email password now ns nid =
        (s, Except.error AuthError.invalidCredentials, 1))
    ∧ (∀ u, get_user_by_email s email = some u →
        verify_pw password u.password = false →
        login fp hash_pw verify_pw cfg s email password now ns nid =
          (s, Except.error AuthError.invalidCredentials, 1)) := by
  constructor
  · intro h0
    unfold login authenticate_user
    rw [h0]
  · intro u hu hv
    unfold login authenticate_user
    rw [hu]
    simp [hv]

/-- Witness for C6: at the concrete store, "b@x.com" is unknown and the
user "a@x.com" exists but "zz" fails verification; both logins fail with
`invalidCredentials` after exactly one hash operation. -/
theorem C6_witness :
    get_user_by_email exStore "b@x.com" = none
    ∧ login exFp exHashPw exVerifyPw exCfg exStore "b@x.com" "zz" 5 "S" 2 =
        (exStore, Except.error AuthError.invalidCredentials, 1)
    ∧ get_user_by_email exStore "a@x.com" = some exUser
    ∧ exVerifyPw "zz" exUser.password = false
    ∧ login exFp exHashPw exVerifyPw exCfg exStore "a@x.com" "zz" 5 "S" 2 =
        (exStore, Except.error AuthError.invalidCredentials, 1) :=
  ⟨by decide,
   (C6_login_timing_indistinguishable exFp exHashPw exVerifyPw exCfg exStore
      "b@x.com" "zz" 5 "S" 2).1 (by decide),
   by decide, by decide,
   (C6_login_timing_indistinguishable exFp exHashPw exVerifyPw exCfg exStore
      "a@x.com" "zz" 5 "S" 2).2 exUser (by decide) (by decide)⟩

/-- C9: `revoke_refresh_token` is idempotent. Revoking a nonexistent or
already-revoked record is a no-op that changes no state; composing revoke
with itself equals a single call; and a first call on an unrevoked record
keeps the user table, keeps every other record, and re-inserts the target
record with only `revoked_at` set. -/
theorem C9_revoke_idempotent (s : Store) (tid : Nat) (t1 t2 : Int) :
    (get_token_by_id s tid = none → revoke_refresh_token s tid t1 = s)
    ∧ (∀ tok, get_token_by_id s tid = some tok → tok.revoked_at ≠ none →
        revoke_refresh_token s tid t1 = s)
    ∧ revoke_refresh_token (revoke_refresh_token s tid t1) tid t2 =
        revoke_refresh_token s tid t1
    ∧ (∀ tok, get_token_by_id s tid = some tok → tok.revoked_at = none →
        (revoke_refresh_token s tid t1).users = s.users
        ∧ ∀ t ∈ s.tokens,
            (t.id ≠ tid → t ∈ (revoke_refresh_token s tid t1).tokens)
            ∧ (t.id = tid →
                { t with revoked_at := some t1 } ∈
                  (revoke_refresh_token s tid t1).tokens)) := by
  have hnoneG : ∀ (s0 : Store) (tm : Int), get_token_by_id s0 tid = none →
      revoke_refresh_token s0 tid tm = s0 := by
    intro s0 tm h0
    unfold revoke_refresh_token
    rw [h0]
  have hrevG : ∀ (s0 : Store) (tm : Int) (tk : RefreshToken),
      get_token_by_id s0 tid = some tk → tk.revoked_at ≠ none →
      revoke_refresh_token s0 tid tm = s0 := by
    intro s0 tm tk h0 hr
    unfold revoke_refresh_token
    rw [h0]
    simp [Option.isSome_iff_ne_none.mpr hr]
  refine ⟨hnoneG s t1, fun tok h0 hr => hrevG s t1 tok h0 hr, ?_, ?_⟩
  · rcases h0 : get_token_by_id s tid with _ | tok
    · rw [hnoneG s t1 h0]
      exact hnoneG s t2 h0
    · by_cases hr : tok.revoked_at = none
      · have hstep : revoke_refresh_token s tid t1 =
            { s with tokens := s.tokens.map (fun t =>
                if t.id == tid then { t with revoked_at := some t1 } else t) } := by
          unfold revoke_refresh_token
          rw [h0]
          simp [hr]
        have hget2 : get_token_by_id (revoke_refresh_token s tid t1) tid =
            some { tok with revoked_at := some t1 } := by
          rw [hstep]
          unfold get_token_by_id
          simp only [List.find?_map]
          have hpe : (fun t : RefreshToken => t.id == tid) ∘
              (fun t : RefreshToken =>
                if t.id == tid then { t with revoked_at := some t1 } else t) =
              (fun t : RefreshToken => t.id == tid) := by
            funext t
            by_cases h : t.id = tid <;> simp [h]
          rw [hpe]
          unfold get_token_by_id at h0
          rw [h0]
          have hidt : (tok.id == tid) = true :=
            List.find?_some (p := fun t : RefreshToken => t.id == tid) h0
          simp [hidt]
          exact fun h => absurd (beq_iff_eq.mp hidt) h
        exact hrevG _ t2 _ hget2 (by simp)
      · rw [hrevG s t1 tok h0 hr]
        exact hrevG s t2 tok h0 hr
  · intro tok h0 hr
    have hstep : revoke_refresh_token s tid t1 =
        { s with tokens := s.tokens.map (fun t =>
            if t.id == tid then { t with revoked_at := some t1 } else t) } := by
      unfold revoke_refresh_token
      rw [h0]
      simp [hr]
    refine ⟨by rw [hstep], ?_⟩
    intro t ht
    constructor
    · intro hne
      rw [hstep]
      refine List.mem_map.mpr ⟨t, ht, ?_⟩
      simp [hne]
    · intro hid
      rw [hstep]
      refine List.mem_map.mpr ⟨t, ht, ?_⟩
      simp [hid]

/-- Witness for C9: revoking missing record 99 is a no-op; double-revoking
record 1 equals a single revoke; a first revoke of active record 1 keeps
the users and stores the record with `revoked_at` set. -/
theorem C9_witness :
    (get_token_by_id exStore 99 = none ∧ revoke_refresh_token exStore 99 7 = exStore)
    ∧ revoke_refresh_token (revoke_refresh_token exStore 1 7) 1 9 =
        revoke_refresh_token exStore 1 7
    ∧ (get_token_by_id exStore 1 = some exTok ∧ exTok.revoked_at = none
       ∧ (revoke_refresh_token exStore 1 7).users = exStore.users
       ∧ { exTok with revoked_at := some 7 } ∈
           (revoke_refresh_token exStore 1 7).tokens) :=
  ⟨⟨by decide, (C9_revoke_idempotent exStore 99 7 9).1 (by decide)⟩,
   (C9_revoke_idempotent exStore 1 7 9).2.2.1,
   ⟨by decide, by decide,
    ((C9_revoke_idempotent exStore 1 7 9).2.2.2 exTok (by decide) (by decide)).1,
    (((C9_revoke_idempotent exStore 1 7 9).2.2.2 exTok (by decide)
        (by decide)).2 exTok (by decide)).2 (by decide)⟩⟩

/-- C7 counterexample: the claim counts "currently-active (non-revoked,
non-expired)" records, but `revoke_all_user_tokens` filters only on
`revoked_at is null`. At a store whose single record for user 1 is
expired-but-unrevoked at time 10, the active count is 0 yet the call
returns 1. -/
theorem C7_counterexample :
    activeRecordCount exExpiredStore 1 10 = 0
    ∧ (revoke_all_user_tokens exExpiredStore 1 10).snd = 1 := by decide

/-- C7 amended: for every user with exactly N non-revoked refresh-token
records (expired or not), `revoke_all_user_tokens` marks exactly those N
records revoked and returns N — every record that is not the user's or is
already revoked survives unchanged, every unrevoked record of the user is
re-stored with `revoked_at = now` — and an immediately following second
call on the same user returns 0. -/
theorem C7_revoke_all_count (s : Store) (uid : Nat) (now now2 : Int) (N : Nat)
    (hN : (s.tokens.filter (fun t =>
        t.user_id == uid && t.revoked_at.isNone)).length = N) :
    (revoke_all_user_tokens s uid now).snd = N
    ∧ (∀ t ∈ s.tokens, t.user_id ≠ uid ∨ t.revoked_at ≠ none →
        t ∈ (revoke_all_user_tokens s uid now).fst.tokens)
    ∧ (∀ t ∈ s.tokens, t.user_id = uid → t.revoked_at = none →
        { t with revoked_at := some now } ∈
          (revoke_all_user_tokens s uid now).fst.tokens)
    ∧ (revoke_all_user_tokens (revoke_all_user_tokens s uid now).fst uid now2).snd
        = 0 := by
  refine ⟨?_, ?_, ?_, ?_⟩
  · unfold revoke_all_user_tokens
    exact hN
  · intro t ht hcond
    unfold revoke_all_user_tokens
    refine List.mem_map.mpr ⟨t, ht, ?_⟩
    rcases hcond with h | h <;> simp [h]
  · intro t ht h1 h2
    unfold revoke_all_user_tokens
    refine List.mem_map.mpr ⟨t, ht, ?_⟩
    simp [h1, h2]
  · unfold revoke_all_user_tokens
    simp only [List.filter_map, List.length_eq_zero, List.map_eq_nil_iff]
    rw [List.filter_eq_nil_iff]
    intro t ht
    by_cases h1 : t.user_id = uid
    · by_cases h2 : t.revoked_at = none
      · simp [h1, h2]
      · simp [h1, h2]
    · simp [h1]

/-- Witness for C7 (amended): user 1 of the concrete multi-record store has
exactly two unrevoked records; the call returns 2, and a second call
returns 0. -/
theorem C7_witness :
    (exMultiStore.tokens.filter (fun t =>
        t.user_id == 1 && t.revoked_at.isNone)).length = 2
    ∧ (revoke_all_user_tokens exMultiStore 1 10).snd = 2
    ∧ (revoke_all_user_tokens (revoke_all_user_tokens exMultiStore 1 10).fst
        1 20).snd = 0 :=
  ⟨by decide,
   (C7_revoke_all_count exMultiStore 1 10 20 2 (by decide)).1,
   (C7_revoke_all_count exMultiStore 1 10 20 2 (by decide)).2.2.2⟩

/-- C8: signup fails with `duplicateEmail`, creating no user and issuing no
tokens, when a user with the email exists; otherwise it creates exactly one
user, stores only the hash of the password (never the plaintext), and
issues an access token for that user together with one refresh-token
record and its raw secret. -/
theorem C8_signup_duplicate_or_create (fp hash_pw : String → String)
    (cfg : Config) (s : Store) (email nm password : String) (uid : Nat)
    (now : Int) (ns : String) (tid : Nat) :
    ((∃ u ∈ s.users, u.email = email) →
      signup fp hash_pw cfg s email nm password uid now ns tid =
        (s, Except.error AuthError.duplicateEmail))
    ∧ ((∀ u ∈ s.users, u.email ≠ email) →
      signup fp hash_pw cfg s email nm password uid now ns tid =
        ({ users := s.users ++ [User.mk uid email nm (hash_pw password)],
           tokens := s.tokens ++
             [RefreshToken.mk tid uid (fp ns)
               (refresh_token_expires_at now cfg.REFRESH_TOKEN_EXPIRES_DAYS) none] },
         Except.ok (User.mk uid email nm (hash_pw password),
           create_access_token cfg (toString uid) now none [], ns))
      ∧ (hash_pw password ≠ password →
          ∀ u ∈ (signup fp hash_pw cfg s email nm password uid now ns tid).fst.users,
            u.email = email → u.password ≠ password)) := by
  constructor
  · rintro ⟨u, hu, he⟩
    have hsome : (get_user_by_email s email).isSome := by
      unfold get_user_by_email
      rw [List.find?_isSome]
      exact ⟨u, hu, by simp [he]⟩
    rcases hx : get_user_by_email s email with _ | x
    · rw [hx] at hsome; simp at hsome
    · have hcu : create_user hash_pw s email nm password uid =
          (s, Except.error AuthError.duplicateEmail) := by
        unfold create_user
        rw [hx]
      unfold signup
      rw [hcu]
  · intro hnone
    have hge : get_user_by_email s email = none := by
      unfold get_user_by_email
      rw [List.find?_eq_none]
      intro u hu
      simp [hnone u hu]
    have hcu : create_user hash_pw s email nm password uid =
        ({ s with users := s.users ++ [User.mk uid email nm (hash_pw password)] },
         Except.ok (User.mk uid email nm (hash_pw password))) := by
      unfold create_user
      rw [hge]
    have hsign : signup fp hash_pw cfg s email nm password uid now ns tid =
        ({ users := s.users ++ [User.mk uid email nm (hash_pw password)],
           tokens := s.tokens ++
             [RefreshToken.mk tid uid (fp ns)
               (refresh_token_expires_at now cfg.REFRESH_TOKEN_EXPIRES_DAYS) none] },
         Except.ok (User.mk uid email nm (hash_pw password),
           create_access_token cfg (toString uid) now none [], ns)) := by
      unfold signup
      rw [hcu]
      rfl
    refine ⟨hsign, ?_⟩
    intro hneq u hu he
    rw [hsign] at hu
    simp only [List.mem_append, List.mem_singleton] at hu
    rcases hu with hu | hu
    · exact absurd he (hnone u hu)
    · rw [hu]
      exact hneq

/-- Witness for C8: signing up the fresh email "b@x.com" against the
concrete store creates exactly that one user with the hashed password, and
signing up the taken email "a@x.com" fails with `duplicateEmail` leaving
the store unchanged. -/
theorem C8_witness :
    (∀ u ∈ exStore.users, u.email ≠ "b@x.com")
    ∧ (signup exFp exHashPw exCfg exStore "b@x.com" "Bob" "pw2" 2 5 "S" 9).fst.users =
        exStore.users ++ [User.mk 2 "b@x.com" "Bob" (exHashPw "pw2")]
    ∧ (∃ u ∈ exStore.users, u.email = "a@x.com")
    ∧ signup exFp exHashPw exCfg exStore "a@x.com" "Ann2" "pw" 3 5 "T" 9 =
        (exStore, Except.error AuthError.duplicateEmail) :=
  ⟨by decide,
   by rw [((C8_signup_duplicate_or_create exFp exHashPw exCfg exStore "b@x.com"
        "Bob" "pw2" 2 5 "S" 9).2 (by decide)).1],
   by decide,
   (C8_signup_duplicate_or_create exFp exHashPw exCfg exStore "a@x.com"
      "Ann2" "pw" 3 5 "T" 9).1 (by decide)⟩

/-- A successful rotation decomposes: validation found a record, the
owning user exists, the returned secret is the fresh one, and the result
store is the original with that record revoked plus one new active
record. -/
theorem refresh_tokens_ok_elim (fp : String → String) (cfg : Config) (s : Store)
    (R : String) (t1 : Int) (ns : String) (nid : Nat) (s1 : Store) (j : Jwt)
    (raw : String)
    (heq : refresh_tokens fp cfg s R t1 ns nid = (s1, Except.ok (j, raw))) :
    ∃ tok user, findActiveToken s (fp R) t1 = some tok
      ∧ get_user_by_id s tok.user_id = some user
      ∧ raw = ns
      ∧ s1 = { users := s.users,
               tokens := (s.tokens.map (fun t =>
                 if t.id == tok.id then { t with revoked_at := some t1 } else t))
                 ++ [RefreshToken.mk nid user.id (fp ns)
                      (refresh_token_expires_at t1 cfg.REFRESH_TOKEN_EXPIRES_DAYS)
                      none] } := by
  unfold refresh_tokens at heq
  rcases hf : findActiveToken s (fp R) t1 with _ | tok
  · rw [hf] at heq
    simp at heq
  · rw [hf] at heq
    rcases hu : get_user_by_id s tok.user_id with _ | user
    · simp only [hu] at heq
      simp at heq
    · simp only [hu, issue_refresh_token] at heq
      simp only [Prod.mk.injEq, Except.ok.injEq] at heq
      obtain ⟨hstore, hj, hraw⟩ := heq
      exact ⟨tok, user, rfl, hu, hraw.symm, hstore.symm⟩

/-- Positional preservation through a per-record update followed by an
append: a row whose `revoked_at` is set stays set. -/
theorem get_revoked_map_append (l : List RefreshToken)
    (f : RefreshToken → RefreshToken)
    (hf : ∀ t, t.revoked_at ≠ none → (f t).revoked_at ≠ none)
    (extra : List RefreshToken) (i : Nat) (h1 : i < l.length)
    (h2 : i < (l.map f ++ extra).length)
    (hr : (l.get ⟨i, h1⟩).revoked_at ≠ none) :
    ((l.map f ++ extra).get ⟨i, h2⟩).revoked_at ≠ none := by
  have hm : i < (l.map f).length := by simpa using h1
  have e1 : (l.map f ++ extra).get ⟨i, h2⟩ = (l.map f).get ⟨i, hm⟩ := by
    rw [List.get_eq_getElem, List.get_eq_getElem, List.getElem_append_left]
  rw [e1, List.get_eq_getElem, List.getElem_map]
  exact hf _ (by rwa [List.get_eq_getElem] at hr)

/-- Positional preservation through a per-record update: a row whose
`revoked_at` is set stays set. -/
theorem get_revoked_map (l : List RefreshToken) (f : RefreshToken → RefreshToken)
    (hf : ∀ t, t.revoked_at ≠ none → (f t).revoked_at ≠ none)
    (i : Nat) (h1 : i < l.length) (h2 : i < (l.map f).length)
    (hr : (l.get ⟨i, h1⟩).revoked_at ≠ none) :
    ((l.map f).get ⟨i, h2⟩).revoked_at ≠ none := by
  rw [List.get_eq_getElem, List.getElem_map]
  exact hf _ (by rwa [List.get_eq_getElem] at hr)

/-- After a rotation that revoked the unique record fingerprinting `R`,
no record of the resulting store validates `R` at any time: the old record
is revoked, the new record carries a different fingerprint, and hash
uniqueness rules out any other match. -/
theorem rotated_store_validate_none (fp : String → String) (cfg : Config)
    (s : Store) (R ns : String) (t1 : Int) (nid : Nat)
    (tok : RefreshToken) (user : User)
    (hdist : TokenHashesDistinct s)
    (hfresh : fp ns ≠ fp R)
    (hf : findActiveToken s (fp R) t1 = some tok) :
    ∀ t2, findActiveToken
      { users := s.users,
        tokens := (s.tokens.map (fun t =>
          if t.id == tok.id then { t with revoked_at := some t1 } else t))
          ++ [RefreshToken.mk nid user.id (fp ns)
               (refresh_token_expires_at t1 cfg.REFRESH_TOKEN_EXPIRES_DAYS) none] }
      (fp R) t2 = none := by
  intro t2
  have hspec := findActiveToken_some_spec s (fp R) t1 tok hf
  have hdist2 : s.tokens.Pairwise (fun a b => a.token_hash ≠ b.token_hash) := hdist
  rw [findActiveToken_eq_none_iff]
  intro x hx hc
  obtain ⟨hhash, hrev, hlt⟩ := hc
  simp only [List.mem_append, List.mem_map, List.mem_singleton] at hx
  rcases hx with ⟨t, ht, rfl⟩ | rfl
  · by_cases hid : (t.id == tok.id) = true
    · rw [if_pos hid] at hrev
      simp at hrev
    · rw [if_neg hid] at hhash hrev
      have hsymm : Symmetric (fun a b : RefreshToken => a.token_hash ≠ b.token_hash) :=
        fun a b h e => h e.symm
      by_cases hte : t = tok
      · rw [hte] at hid
        simp at hid
      · exact (List.Pairwise.forall hsymm hdist2 ht hspec.1 hte)
          (hhash.trans hspec.2.1.symm)
  · exact hfresh hhash

/-- C1: refresh-token rotation is single-use. When `refresh_tokens`
succeeds on secret `R` (hash-unique store, fresh replacement secret), the
record fingerprinting `R` is left with `revoked_at = t1`; every subsequent
validation of `R` at any time finds nothing and every subsequent rotation
of `R` fails with `invalidOrExpiredToken` leaving the store unchanged; and
no store operation (`refresh_tokens`, `revoke_refresh_token`,
`revoke_all_user_tokens`, `issue_refresh_token`) ever clears a record's
`revoked_at` once set. -/
theorem C1_rotation_single_use (fp : String → String) (cfg : Config)
    (s : Store) (R ns : String) (t1 : Int) (nid : Nat) (s1 : Store)
    (j : Jwt) (raw : String)
    (hdist : TokenHashesDistinct s)
    (hfresh : fp ns ≠ fp R)
    (heq : refresh_tokens fp cfg s R t1 ns nid = (s1, Except.ok (j, raw))) :
    (∃ t ∈ s1.tokens, t.token_hash = fp R ∧ t.revoked_at = some t1)
    ∧ (∀ t2, findActiveToken s1 (fp R) t2 = none)
    ∧ (∀ t2 ns2 nid2, refresh_tokens fp cfg s1 R t2 ns2 nid2 =
        (s1, Except.error AuthError.invalidOrExpiredToken))
    ∧ (∀ (s0 : Store) (R0 : String) (tm : Int) (ns0 : String) (nid0 : Nat)
        (i : Nat) (h1 : i < s0.tokens.length)
        (h2 : i < (refresh_tokens fp cfg s0 R0 tm ns0 nid0).fst.tokens.length),
        (s0.tokens.get ⟨i, h1⟩).revoked_at ≠ none →
        ((refresh_tokens fp cfg s0 R0 tm ns0 nid0).fst.tokens.get
          ⟨i, h2⟩).revoked_at ≠ none)
    ∧ (∀ (s0 : Store) (tid : Nat) (tm : Int) (i : Nat)
        (h1 : i < s0.tokens.length)
        (h2 : i < (revoke_refresh_token s0 tid tm).tokens.length),
        (s0.tokens.get ⟨i, h1⟩).revoked_at ≠ none →
        ((revoke_refresh_token s0 tid tm).tokens.get ⟨i, h2⟩).revoked_at ≠ none)
    ∧ (∀ (s0 : Store) (uid : Nat) (tm : Int) (i : Nat)
        (h1 : i < s0.tokens.length)
        (h2 : i < (revoke_all_user_tokens s0 uid tm).fst.tokens.length),
        (s0.tokens.get ⟨i, h1⟩).revoked_at ≠ none →
        ((revoke_all_user_tokens s0 uid tm).fst.tokens.get ⟨i, h2⟩).revoked_at ≠ none)
    ∧ (∀ (s0 : Store) (user : User) (rt : String) (nid0 : Nat) (tm : Int)
        (days : Nat) (i : Nat) (h1 : i < s0.tokens.length)
        (h2 : i < (issue_refresh_token fp s0 user rt nid0 tm days).fst.tokens.length),
        (s0.tokens.get ⟨i, h1⟩).revoked_at ≠ none →
        ((issue_refresh_token fp s0 user rt nid0 tm days).fst.tokens.get
          ⟨i, h2⟩).revoked_at ≠ none) := by
  obtain ⟨tok, user, hf, hu, hraw, hs1⟩ :=
    refresh_tokens_ok_elim fp cfg s R t1 ns nid s1 j raw heq
  have hspec := findActiveToken_some_spec s (fp R) t1 tok hf
  have hvnone := rotated_store_validate_none fp cfg s R ns t1 nid tok user
    hdist hfresh hf
  refine ⟨?_, ?_, ?_, ?_, ?_, ?_, ?_⟩
  · refine ⟨{ tok with revoked_at := some t1 }, ?_, hspec.2.1, rfl⟩
    rw [hs1]
    refine List.mem_append_left _ (List.mem_map.mpr ⟨tok, hspec.1, ?_⟩)
    simp
  · intro t2
    rw [hs1]
    exact hvnone t2
  · intro t2 ns2 nid2
    have h0 : findActiveToken s1 (fp R) t2 = none := by
      rw [hs1]; exact hvnone t2
    unfold refresh_tokens
    rw [h0]
  · intro s0 R0 tm ns0 nid0 i h1 h2 hr
    rcases hf0 : findActiveToken s0 (fp R0) tm with _ | tok0
    · have hres : refresh_tokens fp cfg s0 R0 tm ns0 nid0 =
          (s0, Except.error AuthError.invalidOrExpiredToken) := by
        unfold refresh_tokens
        rw [hf0]
      revert h2
      rw [hres]
      intro h2
      exact hr
    · rcases hu0 : get_user_by_id s0 tok0.user_id with _ | user0
      · have hres : refresh_tokens fp cfg s0 R0 tm ns0 nid0 =
            (s0, Except.error AuthError.userNotFound) := by
          unfold refresh_tokens
          rw [hf0]
          simp only [hu0]
        revert h2
        rw [hres]
        intro h2
        exact hr
      · have hres : (refresh_tokens fp cfg s0 R0 tm ns0 nid0).fst =
            { users := s0.users,
              tokens := (s0.tokens.map (fun t =>
                if t.id == tok0.id then { t with revoked_at := some tm } else t))
                ++ [RefreshToken.mk nid0 user0.id (fp ns0)
                     (refresh_token_expires_at tm cfg.REFRESH_TOKEN_EXPIRES_DAYS)
                     none] } := by
          unfold refresh_tokens
          rw [hf0]
          simp only [hu0, issue_refresh_token]
        revert h2
        rw [hres]
        intro h2
        refine get_revoked_map_append _ _ ?_ _ i h1 h2 hr
        intro t hrt
        by_cases h : (t.id == tok0.id) = true
        · simp [h]
        · simp only [if_neg h]
          exact hrt
  · intro s0 tid tm i h1 h2 hr
    rcases h0 : get_token_by_id s0 tid with _ | tk
    · have hres : revoke_refresh_token s0 tid tm = s0 := by
        unfold revoke_refresh_token
        rw [h0]
      revert h2
      rw [hres]
      intro h2
      exact hr
    · by_cases hv : tk.revoked_at.isSome
      · have hres : revoke_refresh_token s0 tid tm = s0 := by
          unfold revoke_refresh_token
          rw [h0]
          simp [hv]
        revert h2
        rw [hres]
        intro h2
        exact hr
      · have hres : (revoke_refresh_token s0 tid tm).tokens =
            s0.tokens.map (fun t =>
              if t.id == tid then { t with revoked_at := some tm } else t) := by
          unfold revoke_refresh_token
          rw [h0]
          simp [hv]
        revert h2
        rw [hres]
        intro h2
        refine get_revoked_map _ _ ?_ i h1 h2 hr
        intro t hrt
        by_cases h : (t.id == tid) = true
        · simp [h]
        · simp only [if_neg h]
          exact hrt
  · intro s0 uid tm i h1 h2 hr
    have hres : (revoke_all_user_tokens s0 uid tm).fst.tokens =
        s0.tokens.map (fun t =>
          if t.user_id == uid && t.revoked_at.isNone then
            { t with revoked_at := some tm }
          else t) := rfl
    revert h2
    rw [hres]
    intro h2
    refine get_revoked_map _ _ ?_ i h1 h2 hr
    intro t hrt
    by_cases h : (t.user_id == uid && t.revoked_at.isNone) = true
    · simp [h]
    · simp only [if_neg h]
      exact hrt
  · intro s0 user0 rt nid0 tm days i h1 h2 hr
    have hres : (issue_refresh_token fp s0 user0 rt nid0 tm days).fst.tokens =
        s0.tokens ++ [RefreshToken.mk nid0 user0.id (fp rt)
          (refresh_token_expires_at tm days) none] := rfl
    revert h2
    rw [hres]
    intro h2
    have e1 : (s0.tokens ++ [RefreshToken.mk nid0 user0.id (fp rt)
        (refresh_token_expires_at tm days) none]).get ⟨i, h2⟩ =
        s0.tokens.get ⟨i, h1⟩ := by
      rw [List.get_eq_getElem, List.get_eq_getElem, List.getElem_append_left]
    rw [e1]
    exact hr

/-- Witness for C1: rotating "R" at the concrete store succeeds and yields
the expected store; the old secret no longer validates and a second
rotation fails. -/
theorem C1_witness :
    TokenHashesDistinct exStore
    ∧ exFp "S" ≠ exFp "R"
    ∧ refresh_tokens exFp exCfg exStore "R" 5 "S" 2 =
        (exRotStore, Except.ok (exRotJwt, "S"))
    ∧ (∃ t ∈ exRotStore.tokens, t.token_hash = exFp "R" ∧ t.revoked_at = some 5)
    ∧ findActiveToken exRotStore (exFp "R") 999 = none
    ∧ refresh_tokens exFp exCfg exRotStore "R" 999 "U" 7 =
        (exRotStore, Except.error AuthError.invalidOrExpiredToken) := by
  have heq : refresh_tokens exFp exCfg exStore "R" 5 "S" 2 =
      (exRotStore, Except.ok (exRotJwt, "S")) := by rfl
  exact ⟨by decide, by decide, heq,
    (C1_rotation_single_use exFp exCfg exStore "R" "S" 5 2 exRotStore exRotJwt "S"
      (by decide) (by decide) heq).1,
    (C1_rotation_single_use exFp exCfg exStore "R" "S" 5 2 exRotStore exRotJwt "S"
      (by decide) (by decide) heq).2.1 999,
    (C1_rotation_single_use exFp exCfg exStore "R" "S" 5 2 exRotStore exRotJwt "S"
      (by decide) (by decide) heq).2.2.1 999 "U" 7⟩


end ChatWithDocs
